import Mathlib

/-!
Shallow embedding of the etcd raft HTTP transport handlers
(`rafthttp/http.go`): the message ingestion handler, the snapshot
transfer handler, the stream handler, the cluster-compatibility check
and the `closeNotifier` connection-lifecycle primitive.

Handlers are embedded as pure functions from a request, a request body
and an environment of collaborator outcomes (consensus engine, snapshot
saver, peer directory, version check) to a response together with the
ordered trace of the side-effecting steps the handler performed.
-/

namespace Rafthttp

/-- Events recording the side-effecting steps a handler performs, in
order: the compatibility check, the bounded body read, the message
decode, the snapshot save, the engine dispatch (`Process`), the
removed-member query, the peer-directory lookup (`Get`), and the
attachment of an outgoing connection. -/
inductive Ev where
  | checkCompat
  | readBody
  | decode
  | saveFrom
  | process
  | isIDRemoved
  | peerGet
  | attach
deriving DecidableEq, Repr

/-- `ConnReadLimitByte = 64 * 1024` from `rafthttp/http.go`. -/
def ConnReadLimitByte : Nat := 64 * 1024

/-! ### Go `path` package (stdlib collaborator of the handlers)

`path.Clean`, `path.Dir`, `path.Base` and `path.Join`, implemented on
`List Char` for executability. -/

/-- Split a character list on `'/'` into segments (Go `strings.Split`
on `"/"`). -/
def splitOnSlash (l : List Char) : List (List Char) :=
  l.foldr
    (fun c acc =>
      match acc with
      | s :: rest => if c = '/' then [] :: s :: rest else (c :: s) :: rest
      | [] => [[c]])
    [[]]

/-- Join segments with `'/'` separators. -/
def segsJoin : List (List Char) → List Char
  | [] => []
  | [s] => s
  | s :: rest => s ++ '/' :: segsJoin rest

/-- The element stack of Go `path.Clean`: processes `".."` segments
against the stack of already-emitted segments (stack kept reversed). -/
def cleanSegs (rooted : Bool) : List (List Char) → List (List Char) → List (List Char)
  | st, [] => st
  | st, s :: rest =>
    if s = ['.', '.'] then
      match st with
      | [] => cleanSegs rooted (if rooted then [] else [['.', '.']]) rest
      | t :: st' =>
        if t = ['.', '.'] then cleanSegs rooted (s :: t :: st') rest
        else cleanSegs rooted st' rest
    else cleanSegs rooted (s :: st) rest

/-- Go `path.Clean`: normalizes a slash-separated path (drops empty and
`"."` segments, resolves `".."`, keeps rootedness; empty path cleans to
`"."`). -/
def pathClean (p : String) : String :=
  if p.data = [] then "."
  else
    let rooted := p.data.head? = some '/'
    let segs := (splitOnSlash p.data).filter (fun s => !s.isEmpty && s ≠ ['.'])
    let out := (cleanSegs rooted [] segs).reverse
    if out = [] then (if rooted then "/" else ".")
    else String.mk ((if rooted then ['/'] else []) ++ segsJoin out)

/-- Go `path.Split`: splits a path just after its last `'/'` into
(directory part including the slash, base part). -/
def pathSplit (p : String) : String × String :=
  (String.mk ((p.data.reverse.dropWhile (· ≠ '/')).reverse),
   String.mk ((p.data.reverse.takeWhile (· ≠ '/')).reverse))

/-- Go `path.Dir`: the cleaned directory part of a path. -/
def pathDir (p : String) : String := pathClean (pathSplit p).1

/-- Go `path.Base`: the last element of a path, after stripping
trailing slashes; `"."` for the empty path, `"/"` for all-slash paths. -/
def pathBase (p : String) : String :=
  if p.data = [] then "."
  else
    let l := p.data.reverse.dropWhile (· = '/')
    if l = [] then "/"
    else String.mk ((l.takeWhile (· ≠ '/')).reverse)

/-- Go `path.Join` for two elements: joins the nonempty ones with `'/'`
and cleans the result; all-empty joins to `""`. -/
def pathJoin (a b : String) : String :=
  if a = "" && b = "" then ""
  else if a = "" then pathClean b
  else if b = "" then pathClean a
  else pathClean (a ++ "/" ++ b)

/-- `RaftPrefix = "/raft"` from `rafthttp/http.go`. -/
def RaftPrefix : String := "/raft"

/-- `RaftStreamPrefix = path.Join(RaftPrefix, "stream")`. -/
def RaftStreamPrefix : String := pathJoin RaftPrefix "stream"

/-- `RaftSnapshotPrefix = path.Join(RaftPrefix, "snapshot")`. -/
def RaftSnapshotPrefix : String := pathJoin RaftPrefix "snapshot"

/-! ### Identifiers and headers -/

/-- `types.ID.String()`: lower-case hexadecimal rendering of a 64-bit
member id (Go `strconv.FormatUint(uint64(t), 16)`). -/
def idToString (n : Nat) : String := String.mk (Nat.toDigits 16 n)

/-- Modelled from the spec: `types.IDFromString` (package `pkg/types`,
not under `src/`) parses the trailing path segment as a member id;
"malformed identity yields not-found". It is Go
`strconv.ParseUint(s, 16, 64)`: nonempty hexadecimal digits, value
below `2^64`. -/
def hexDigitVal (c : Char) : Option Nat :=
  if '0' ≤ c ∧ c ≤ '9' then some (c.toNat - '0'.toNat)
  else if 'a' ≤ c ∧ c ≤ 'f' then some (c.toNat - 'a'.toNat + 10)
  else if 'A' ≤ c ∧ c ≤ 'F' then some (c.toNat - 'A'.toNat + 10)
  else none

/-- Modelled from the spec: parse a member id from a string (see
`hexDigitVal`); `none` is the parse failure that yields not-found. -/
def idFromString (s : String) : Option Nat :=
  if s.data = [] then none
  else
    (s.data.foldl
      (fun acc c => acc.bind (fun n => (hexDigitVal c).map (fun d => n * 16 + d)))
      (some 0)).bind
      (fun n => if n < 2 ^ 64 then some n else none)

/-- An HTTP header map with Go `http.Header` access semantics:
`Get` of an absent key is `""`, `Set` replaces. Headers are kept as an
association list. -/
def headerGet (hs : List (String × String)) (k : String) : String :=
  match hs.find? (fun kv => kv.1 == k) with
  | some kv => kv.2
  | none => ""

/-- Go `http.Header.Set`: replace any existing value for the key. -/
def headerSet (hs : List (String × String)) (k v : String) : List (String × String) :=
  (k, v) :: hs.filter (fun kv => kv.1 != k)

/-- An inbound HTTP request: method, URL path and headers. -/
structure HttpRequest where
  method : String
  path : String
  headers : List (String × String)

/-- The response as accumulated on the `http.ResponseWriter`: the
header map at write time, the written status code and the body text. -/
structure HttpResponse where
  headers : List (String × String)
  status : Nat
  body : String
deriving DecidableEq, Repr

/-- Go `http.Error(w, msg, code)`: writes the status code and the
message as body; headers already set on the writer are sent. -/
def httpError (hs : List (String × String)) (msg : String) (code : Nat) : HttpResponse :=
  ⟨hs, code, msg⟩

/-! ### Collaborators -/

/-- Modelled from the spec: the consensus-message type tag; the
snapshot handler accepts only `raftpb.MsgSnap` (the `raftpb` enum is
not under `src/`; the spec fixes a 1:1 enumeration of type tags). -/
def MsgSnap : Nat := 15

/-- A decoded consensus message: type tag, sender, and the embedded
snapshot metadata index (`m.Snapshot.Metadata.Index`). -/
structure RaftMsg where
  typ : Nat
  msgFrom : Nat
  snapIndex : Nat
deriving DecidableEq, Repr

/-- An error returned by the consensus engine's `Process`: either one
implementing `writerToResponse` (it writes its own status and body), or
a generic error rendered as an internal server error. -/
inductive ProcErr where
  | writerTo (status : Nat) (body : String)
  | generic (msg : String)

/-- Outcomes of the handlers' collaborators for one request: the
version-compatibility verdict (`checkVersionCompability`, in
`rafthttp/util.go`, outside `src/`), the protobuf unmarshal of a byte
body, the snapshot `messageDecoder` outcome, the engine `Process`
outcome per message, the snapshot saver `SaveFrom` outcome per index
(`some` is the error message), the engine's removed-member set, the
peer directory (`Get` returns a peer or nil), and the node's
`version.Version` string. -/
structure Env where
  versionOk : Bool
  unmarshal : List Nat → Option RaftMsg
  decodeSnapMsg : Option RaftMsg
  process : RaftMsg → Option ProcErr
  saveFrom : Nat → Option String
  isIDRemoved : Nat → Bool
  peerFound : Nat → Bool
  serverVersion : String

/-- The request body as handed to the handler: its bytes, plus whether
the underlying reader fails with an error. -/
structure Body where
  bytes : List Nat
  readErr : Bool

/-- Modelled from the spec: the bounded body read
(`pioutil.NewLimitedBufferReader(r.Body, ConnReadLimitByte)` then
`ioutil.ReadAll`; `pkg/ioutil` is not under `src/`). "Read the request
body up to a fixed byte ceiling ...; exceeding the ceiling or
encountering a read error yields a bad-request response": the read
errors when the underlying reader fails or the body exceeds
`ConnReadLimitByte`. -/
def readLimited (b : Body) : Option (List Nat) :=
  if b.readErr then none
  else if b.bytes.length > ConnReadLimitByte then none
  else some b.bytes

/-! ### Compatibility check -/

/-- The two failure kinds of `checkClusterCompatibilityFromHeader`:
`errIncompatibleVersion` and `errClusterIDMismatch`. -/
inductive CompatErr where
  | incompatibleVersion
  | clusterIDMismatch
deriving DecidableEq, Repr

/-- The `error.Error()` text of each compatibility failure
(`errors.New("incompatible version")`, `errors.New("cluster ID mismatch")`). -/
def CompatErr.text : CompatErr → String
  | .incompatibleVersion => "incompatible version"
  | .clusterIDMismatch => "cluster ID mismatch"

/-- `checkClusterCompatibilityFromHeader`: first the version check
(its outcome supplied by `versionOk`, since `checkVersionCompability`
lives outside `src/`), then the cluster-ID comparison against the
`X-Etcd-Cluster-ID` request header. -/
def checkClusterCompatibilityFromHeader (versionOk : Bool)
    (headers : List (String × String)) (cid : Nat) : Option CompatErr :=
  if !versionOk then some .incompatibleVersion
  else if headerGet headers "X-Etcd-Cluster-ID" != idToString cid then
    some .clusterIDMismatch
  else none

/-! ### Stream types -/

/-- The three stream types of the transport (defined in
`rafthttp/stream.go`, outside `src/`): the legacy message stream
(`streamTypeMsgApp`), typed stream v1 (`streamTypeMsgAppV2`) and typed
stream v2 (`streamTypeMessage`). -/
inductive streamType where
  | msgApp
  | msgAppV2
  | message
deriving DecidableEq, Repr

/-- Modelled from the spec: the path-suffix strings of the stream types
(`string(streamTypeMsgApp)` and `string(streamTypeMessage)` are used to
build the typed stream paths `/raft/stream/msgapp/<id>` and
`/raft/stream/message/<id>`). -/
def streamType.toStr : streamType → String
  | .msgApp => "msgapp"
  | .msgAppV2 => "msgappV2"
  | .message => "message"

/-- The stream-type classification of `streamHandler.ServeHTTP`: the
`switch path.Dir(r.URL.Path)` selecting the stream type, `none` for the
default (not-found) branch. On `RaftStreamPrefix` itself the legacy
type `streamTypeMsgApp` is selected (backward compatibility); the
`msgapp` suffix selects `streamTypeMsgAppV2`; the `message` suffix
selects `streamTypeMessage`. -/
def streamPathType (p : String) : Option streamType :=
  if pathDir p = RaftStreamPrefix then some .msgApp
  else if pathDir p = pathJoin RaftStreamPrefix streamType.msgApp.toStr then some .msgAppV2
  else if pathDir p = pathJoin RaftStreamPrefix streamType.message.toStr then some .message
  else none

/-! ### The three handlers -/

/-- A handler outcome: the response and the ordered trace of
side-effecting steps. -/
structure HandlerResult where
  resp : HttpResponse
  evs : List Ev

/-- `handler.ServeHTTP` (the message ingestion handler), translated
branch by branch: method gate, cluster-ID response header, compat
check, bounded read, unmarshal, engine dispatch, 204. -/
def handlerServe (cid : Nat) (env : Env) (req : HttpRequest) (b : Body) : HandlerResult :=
  if req.method ≠ "POST" then
    ⟨httpError (headerSet [] "Allow" "POST") "Method Not Allowed" 405, []⟩
  else
    let hs := headerSet [] "X-Etcd-Cluster-ID" (idToString cid)
    match checkClusterCompatibilityFromHeader env.versionOk req.headers cid with
    | some e => ⟨httpError hs e.text 412, [.checkCompat]⟩
    | none =>
      match readLimited b with
      | none =>
        ⟨httpError hs "error reading raft message" 400, [.checkCompat, .readBody]⟩
      | some bytes =>
        match env.unmarshal bytes with
        | none =>
          ⟨httpError hs "error unmarshaling raft message" 400,
           [.checkCompat, .readBody, .decode]⟩
        | some m =>
          match env.process m with
          | some (.writerTo st bd) =>
            ⟨⟨hs, st, bd⟩, [.checkCompat, .readBody, .decode, .process]⟩
          | some (.generic _) =>
            ⟨httpError hs "error processing raft message" 500,
             [.checkCompat, .readBody, .decode, .process]⟩
          | none => ⟨⟨hs, 204, ""⟩, [.checkCompat, .readBody, .decode, .process]⟩

/-- `snapshotHandler.ServeHTTP`, translated branch by branch: method
gate, cluster-ID response header, compat check, envelope decode,
message-type check, `SaveFrom`, engine dispatch, 204. -/
def snapshotHandlerServe (cid : Nat) (env : Env) (req : HttpRequest) : HandlerResult :=
  if req.method ≠ "POST" then
    ⟨httpError (headerSet [] "Allow" "POST") "Method Not Allowed" 405, []⟩
  else
    let hs := headerSet [] "X-Etcd-Cluster-ID" (idToString cid)
    match checkClusterCompatibilityFromHeader env.versionOk req.headers cid with
    | some e => ⟨httpError hs e.text 412, [.checkCompat]⟩
    | none =>
      match env.decodeSnapMsg with
      | none =>
        ⟨httpError hs "failed to decode raft message" 400, [.checkCompat, .decode]⟩
      | some m =>
        if m.typ ≠ MsgSnap then
          ⟨httpError hs "wrong raft message type" 400, [.checkCompat, .decode]⟩
        else
          match env.saveFrom m.snapIndex with
          | some _ =>
            ⟨httpError hs "failed to save KV snapshot" 500,
             [.checkCompat, .decode, .saveFrom]⟩
          | none =>
            match env.process m with
            | some (.writerTo st bd) =>
              ⟨⟨hs, st, bd⟩, [.checkCompat, .decode, .saveFrom, .process]⟩
            | some (.generic _) =>
              ⟨httpError hs "failed to process raft message" 500,
               [.checkCompat, .decode, .saveFrom, .process]⟩
            | none => ⟨⟨hs, 204, ""⟩, [.checkCompat, .decode, .saveFrom, .process]⟩

/-- A stream-handler outcome: the response, the trace, and the outgoing
connection attached to the peer (stream type and `X-Raft-Term` value),
when one was. -/
structure StreamResult where
  resp : HttpResponse
  evs : List Ev
  conn : Option (streamType × String)

/-- `streamHandler.ServeHTTP`, translated branch by branch: method
gate, `X-Server-Version` and cluster-ID response headers, compat check,
stream-type classification by `path.Dir`, sender-id parse by
`path.Base`, removed-member check, peer lookup, `X-Raft-To` check, then
200, attach, and block on the close notifier. -/
def streamHandlerServe (selfId cid : Nat) (env : Env) (req : HttpRequest) : StreamResult :=
  if req.method ≠ "GET" then
    ⟨httpError (headerSet [] "Allow" "GET") "Method Not Allowed" 405, [], none⟩
  else
    let hs := headerSet (headerSet [] "X-Server-Version" env.serverVersion)
      "X-Etcd-Cluster-ID" (idToString cid)
    match checkClusterCompatibilityFromHeader env.versionOk req.headers cid with
    | some e => ⟨httpError hs e.text 412, [.checkCompat], none⟩
    | none =>
      match streamPathType req.path with
      | none => ⟨httpError hs "invalid path" 404, [.checkCompat], none⟩
      | some t =>
        match idFromString (pathBase req.path) with
        | none => ⟨httpError hs "invalid from" 404, [.checkCompat], none⟩
        | some fromId =>
          if env.isIDRemoved fromId then
            ⟨httpError hs "removed member" 410, [.checkCompat, .isIDRemoved], none⟩
          else if !env.peerFound fromId then
            ⟨httpError hs "error sender not found" 404,
             [.checkCompat, .isIDRemoved, .peerGet], none⟩
          else if headerGet req.headers "X-Raft-To" ≠ idToString selfId then
            ⟨httpError hs "to field mismatch" 412,
             [.checkCompat, .isIDRemoved, .peerGet], none⟩
          else
            ⟨⟨hs, 200, ""⟩, [.checkCompat, .isIDRemoved, .peerGet, .attach],
             some (t, headerGet req.headers "X-Raft-Term")⟩

/-! ### closeNotifier -/

/-- A Go `chan struct{}` used purely as a close-broadcast: its one
observable state is whether it has been closed. A receive on it
completes (immediately) iff it is closed, since nothing ever sends. -/
structure GoChan where
  closed : Bool
deriving DecidableEq, Repr

/-- Go `close(ch)`: returns the updated channel, or `none` for the
runtime panic raised by closing an already-closed channel. -/
def GoChan.closeCh (c : GoChan) : Option GoChan :=
  if c.closed then none else some ⟨true⟩

/-- Whether a receive from the channel returns immediately (true
exactly when the channel is closed; the `done` channel never carries a
value). -/
def GoChan.recvReady (c : GoChan) : Bool := c.closed

/-- `closeNotifier` from `rafthttp/http.go`: wraps the `done` channel. -/
structure closeNotifier where
  done : GoChan
deriving DecidableEq, Repr

/-- `newCloseNotifier()`: a fresh, unfired notifier. -/
def newCloseNotifier : closeNotifier := ⟨⟨false⟩⟩

/-- `closeNotifier.Close()`: `close(n.done); return nil`. The result is
the updated notifier and the returned error (always `none`, i.e. nil),
or `none` overall for the panic on a second close. -/
def closeNotifier.Close (n : closeNotifier) : Option (closeNotifier × Option String) :=
  (n.done.closeCh).map (fun d => (⟨d⟩, none))

/-- `closeNotifier.closeNotify()`: returns the `done` channel. -/
def closeNotifier.closeNotify (n : closeNotifier) : GoChan := n.done

/-- Whether `k` successive waits on the notifier's channel all return
immediately (receiving from a channel does not change its
closed state). -/
def waitsReturn (n : closeNotifier) : Nat → Bool
  | 0 => true
  | k + 1 => n.closeNotify.recvReady && waitsReturn n k

/-! ### Sample inputs used by witnesses and counterexamples -/

/-- A sample collaborator environment in which every collaborator
succeeds. -/
def sampleEnv : Env where
  versionOk := true
  unmarshal := fun _ => some ⟨0, 1, 0⟩
  decodeSnapMsg := some ⟨MsgSnap, 1, 5⟩
  process := fun _ => none
  saveFrom := fun _ => none
  isIDRemoved := fun _ => false
  peerFound := fun _ => true
  serverVersion := "2.1.0"

/-- A sample request whose `X-Etcd-Cluster-ID` header (`"dead"`) does
not match cluster id 1 (`"1"`), sent with method GET. -/
def mismatchGetReq : HttpRequest := ⟨"GET", "/raft", [("X-Etcd-Cluster-ID", "dead")]⟩

/-- A sample empty, error-free request body. -/
def sampleBody : Body := ⟨[], false⟩

/-! ### Helper lemmas -/

theorem takeWhile_append_of_all {α} (p : α → Bool) (l₁ l₂ : List α)
    (h : ∀ a ∈ l₁, p a = true) :
    (l₁ ++ l₂).takeWhile p = l₁ ++ l₂.takeWhile p := by
  induction l₁ with
  | nil => simp
  | cons a l ih =>
    simp [List.takeWhile_cons, h a (by simp), ih (fun x hx => h x (by simp [hx]))]

theorem dropWhile_append_of_all {α} (p : α → Bool) (l₁ l₂ : List α)
    (h : ∀ a ∈ l₁, p a = true) :
    (l₁ ++ l₂).dropWhile p = l₂.dropWhile p := by
  induction l₁ with
  | nil => simp
  | cons a l ih =>
    simp [List.dropWhile_cons, h a (by simp), ih (fun x hx => h x (by simp [hx]))]

/-! ### Claims -/

theorem headerGet_headerSet (hs : List (String × String)) (k v : String) :
    headerGet (headerSet hs k v) k = v := by
  simp [headerGet, headerSet]

theorem compat_some_of_mismatch (v : Bool) (hs : List (String × String)) (cid : Nat)
    (hm : headerGet hs "X-Etcd-Cluster-ID" ≠ idToString cid) :
    ∃ e, checkClusterCompatibilityFromHeader v hs cid = some e := by
  cases v
  · exact ⟨.incompatibleVersion, by simp [checkClusterCompatibilityFromHeader]⟩
  · exact ⟨.clusterIDMismatch, by simp [checkClusterCompatibilityFromHeader, hm]⟩

theorem handlerServe_headers (cid : Nat) (env : Env) (req : HttpRequest) (b : Body)
    (hp : req.method = "POST") :
    (handlerServe cid env req b).resp.headers =
      headerSet [] "X-Etcd-Cluster-ID" (idToString cid) := by
  unfold handlerServe
  rw [if_neg (by simp [hp])]
  repeat' split
  all_goals rfl

theorem snapshotHandlerServe_headers (cid : Nat) (env : Env) (req : HttpRequest)
    (hp : req.method = "POST") :
    (snapshotHandlerServe cid env req).resp.headers =
      headerSet [] "X-Etcd-Cluster-ID" (idToString cid) := by
  unfold snapshotHandlerServe
  rw [if_neg (by simp [hp])]
  repeat' split
  all_goals rfl

theorem streamHandlerServe_headers (selfId cid : Nat) (env : Env) (req : HttpRequest)
    (hg : req.method = "GET") :
    (streamHandlerServe selfId cid env req).resp.headers =
      headerSet (headerSet [] "X-Server-Version" env.serverVersion)
        "X-Etcd-Cluster-ID" (idToString cid) := by
  unfold streamHandlerServe
  rw [if_neg (by simp [hg])]
  repeat' split
  all_goals rfl

/-- Counterexample for C1: a GET sent to the message handler with an
`X-Etcd-Cluster-ID` header that differs from the receiver's identity is
answered with 405 (the method check runs first), not 412 — so a
mismatched cluster-ID header does not yield 412 "regardless of method
validity". -/
theorem wrong_method_cluster_mismatch_gets_405_not_412 :
    headerGet mismatchGetReq.headers "X-Etcd-Cluster-ID" ≠ idToString 1 ∧
    (handlerServe 1 sampleEnv mismatchGetReq sampleBody).resp.status = 405 ∧
    (handlerServe 1 sampleEnv mismatchGetReq sampleBody).resp.status ≠ 412 := by
  decide

/-- C1 (amended): for every request that uses the handler's accepted
method (POST for the message and snapshot handlers, GET for the stream
handler) and whose `X-Etcd-Cluster-ID` header differs from the
receiver's configured identity, the response status is 412 regardless
of path validity or any other property of the request. -/
theorem accepted_method_cluster_mismatch_always_412
    (cid selfId : Nat) (env : Env) (reqP reqS reqG : HttpRequest) (b : Body)
    (hp : reqP.method = "POST") (hs : reqS.method = "POST") (hg : reqG.method = "GET")
    (hmp : headerGet reqP.headers "X-Etcd-Cluster-ID" ≠ idToString cid)
    (hms : headerGet reqS.headers "X-Etcd-Cluster-ID" ≠ idToString cid)
    (hmg : headerGet reqG.headers "X-Etcd-Cluster-ID" ≠ idToString cid) :
    (handlerServe cid env reqP b).resp.status = 412 ∧
    (snapshotHandlerServe cid env reqS).resp.status = 412 ∧
    (streamHandlerServe selfId cid env reqG).resp.status = 412 := by
  obtain ⟨e₁, he₁⟩ := compat_some_of_mismatch env.versionOk reqP.headers cid hmp
  obtain ⟨e₂, he₂⟩ := compat_some_of_mismatch env.versionOk reqS.headers cid hms
  obtain ⟨e₃, he₃⟩ := compat_some_of_mismatch env.versionOk reqG.headers cid hmg
  refine ⟨?_, ?_, ?_⟩
  · simp [handlerServe, hp, he₁, httpError]
  · simp [snapshotHandlerServe, hs, he₂, httpError]
  · simp [streamHandlerServe, hg, he₃, httpError]

/-- Witness for C1 (amended): concrete accepted-method requests with a
mismatched cluster-ID header all get 412 from their handlers. -/
theorem accepted_method_cluster_mismatch_always_412_witness :
    headerGet [("X-Etcd-Cluster-ID", "dead")] "X-Etcd-Cluster-ID" ≠ idToString 1 ∧
    ((handlerServe 1 sampleEnv ⟨"POST", "/raft", [("X-Etcd-Cluster-ID", "dead")]⟩
        sampleBody).resp.status = 412 ∧
      (snapshotHandlerServe 1 sampleEnv
        ⟨"POST", "/raft/snapshot", [("X-Etcd-Cluster-ID", "dead")]⟩).resp.status = 412 ∧
      (streamHandlerServe 2 1 sampleEnv
        ⟨"GET", "/raft/stream/7", [("X-Etcd-Cluster-ID", "dead")]⟩).resp.status = 412) :=
  ⟨by decide,
   accepted_method_cluster_mismatch_always_412 1 2 sampleEnv
     ⟨"POST", "/raft", [("X-Etcd-Cluster-ID", "dead")]⟩
     ⟨"POST", "/raft/snapshot", [("X-Etcd-Cluster-ID", "dead")]⟩
     ⟨"GET", "/raft/stream/7", [("X-Etcd-Cluster-ID", "dead")]⟩
     sampleBody rfl rfl rfl (by decide) (by decide) (by decide)⟩

/-- Counterexample for C2: a wrong-method (405) response from the
message handler does not carry the `X-Etcd-Cluster-ID` header — the
handler sets that header only after the method check passes. -/
theorem method_not_allowed_response_lacks_cluster_header :
    (handlerServe 1 sampleEnv mismatchGetReq sampleBody).resp.status = 405 ∧
    ("X-Etcd-Cluster-ID", idToString 1) ∉
      (handlerServe 1 sampleEnv mismatchGetReq sampleBody).resp.headers ∧
    headerGet (handlerServe 1 sampleEnv mismatchGetReq sampleBody).resp.headers
      "X-Etcd-Cluster-ID" = "" := by
  decide

/-- C2 (amended): for every request with the handler's accepted method
(POST for message and snapshot, GET for stream), the response carries
`X-Etcd-Cluster-ID` set to the receiver's cluster identity, whatever
the outcome. -/
theorem cluster_header_echoed_on_accepted_method
    (cid selfId : Nat) (env : Env) (reqP reqS reqG : HttpRequest) (b : Body)
    (hp : reqP.method = "POST") (hs : reqS.method = "POST") (hg : reqG.method = "GET") :
    headerGet (handlerServe cid env reqP b).resp.headers "X-Etcd-Cluster-ID" =
      idToString cid ∧
    headerGet (snapshotHandlerServe cid env reqS).resp.headers "X-Etcd-Cluster-ID" =
      idToString cid ∧
    headerGet (streamHandlerServe selfId cid env reqG).resp.headers "X-Etcd-Cluster-ID" =
      idToString cid := by
  refine ⟨?_, ?_, ?_⟩
  · rw [handlerServe_headers cid env reqP b hp, headerGet_headerSet]
  · rw [snapshotHandlerServe_headers cid env reqS hs, headerGet_headerSet]
  · rw [streamHandlerServe_headers selfId cid env reqG hg, headerGet_headerSet]

/-- Witness for C2 (amended): concrete accepted-method requests (here
ones that fail the compatibility check) still carry the echoed
cluster-ID header on their responses. -/
theorem cluster_header_echoed_on_accepted_method_witness :
    headerGet (handlerServe 1 sampleEnv
        ⟨"POST", "/raft", [("X-Etcd-Cluster-ID", "dead")]⟩ sampleBody).resp.headers
      "X-Etcd-Cluster-ID" = idToString 1 ∧
    headerGet (snapshotHandlerServe 1 sampleEnv
        ⟨"POST", "/raft/snapshot", [("X-Etcd-Cluster-ID", "dead")]⟩).resp.headers
      "X-Etcd-Cluster-ID" = idToString 1 ∧
    headerGet (streamHandlerServe 2 1 sampleEnv
        ⟨"GET", "/raft/stream/7", [("X-Etcd-Cluster-ID", "dead")]⟩).resp.headers
      "X-Etcd-Cluster-ID" = idToString 1 :=
  cluster_header_echoed_on_accepted_method 1 2 sampleEnv
    ⟨"POST", "/raft", [("X-Etcd-Cluster-ID", "dead")]⟩
    ⟨"POST", "/raft/snapshot", [("X-Etcd-Cluster-ID", "dead")]⟩
    ⟨"GET", "/raft/stream/7", [("X-Etcd-Cluster-ID", "dead")]⟩
    sampleBody rfl rfl rfl

theorem pathSplit_fst_append (pre id : String)
    (hpre : pre.data.reverse.head? = some '/')
    (hid : ∀ c ∈ id.data, c ≠ '/') :
    (pathSplit (pre ++ id)).1 = pre := by
  have hdata : (pre ++ id).data = pre.data ++ id.data := rfl
  unfold pathSplit
  simp only [hdata, List.reverse_append]
  rw [dropWhile_append_of_all _ id.data.reverse pre.data.reverse
    (fun a ha => decide_eq_true (hid a (List.mem_reverse.mp ha)))]
  cases hrev : pre.data.reverse with
  | nil => rw [hrev] at hpre; simp at hpre
  | cons a rest =>
    rw [hrev] at hpre
    simp only [List.head?_cons, Option.some.injEq] at hpre
    subst hpre
    simp only [List.dropWhile_cons]
    norm_num
    have hpd : pre.data = rest.reverse ++ ['/'] := by
      have h2 := congrArg List.reverse hrev
      simpa using h2
    rw [← hpd]

theorem pathDir_append_slashfree (pre id : String)
    (hpre : pre.data.reverse.head? = some '/')
    (hid : ∀ c ∈ id.data, c ≠ '/') :
    pathDir (pre ++ id) = pathClean pre := by
  unfold pathDir
  rw [pathSplit_fst_append pre id hpre hid]

/-- C4: stream-type classification is a pure function of the URL path:
`/raft/stream/<id>` selects the legacy stream type (`streamTypeMsgApp`,
the spec's legacy-message-stream), `/raft/stream/msgapp/<id>` selects
`streamTypeMsgAppV2` (the spec's typed-stream-v1),
`/raft/stream/message/<id>` selects `streamTypeMessage` (the spec's
typed-stream-v2), and on any other path the handler answers 404 with no
stream type selected and nothing attached. -/
theorem stream_type_pure_function_of_path (id : String)
    (hid : ∀ c ∈ id.data, c ≠ '/') :
    streamPathType ("/raft/stream/" ++ id) = some streamType.msgApp ∧
    streamPathType ("/raft/stream/msgapp/" ++ id) = some streamType.msgAppV2 ∧
    streamPathType ("/raft/stream/message/" ++ id) = some streamType.message ∧
    ∀ (p : String) (selfId cid : Nat) (env : Env) (hdrs : List (String × String)),
      streamPathType p = none →
      checkClusterCompatibilityFromHeader env.versionOk hdrs cid = none →
      (streamHandlerServe selfId cid env ⟨"GET", p, hdrs⟩).resp.status = 404 ∧
      (streamHandlerServe selfId cid env ⟨"GET", p, hdrs⟩).conn = none := by
  refine ⟨?_, ?_, ?_, ?_⟩
  · simp only [streamPathType,
      pathDir_append_slashfree "/raft/stream/" id (by decide) hid]
    decide
  · simp only [streamPathType,
      pathDir_append_slashfree "/raft/stream/msgapp/" id (by decide) hid]
    decide
  · simp only [streamPathType,
      pathDir_append_slashfree "/raft/stream/message/" id (by decide) hid]
    decide
  · intro p selfId cid env hdrs hnone hcomp
    constructor <;> simp [streamHandlerServe, hcomp, hnone, httpError]

/-- Witness for C4: sender id `"7"`; the three recognized path shapes
select their stream types, and the unrecognized path
`/raft/stream/other/7` is answered 404 with nothing attached. -/
theorem stream_type_pure_function_of_path_witness :
    streamPathType ("/raft/stream/" ++ "7") = some streamType.msgApp ∧
    streamPathType ("/raft/stream/msgapp/" ++ "7") = some streamType.msgAppV2 ∧
    streamPathType ("/raft/stream/message/" ++ "7") = some streamType.message ∧
    ((streamHandlerServe 2 1 sampleEnv
        ⟨"GET", "/raft/stream/other/7", [("X-Etcd-Cluster-ID", "1")]⟩).resp.status = 404 ∧
      (streamHandlerServe 2 1 sampleEnv
        ⟨"GET", "/raft/stream/other/7", [("X-Etcd-Cluster-ID", "1")]⟩).conn = none) :=
  have h := stream_type_pure_function_of_path "7" (by decide)
  ⟨h.1, h.2.1, h.2.2.1,
   h.2.2.2 "/raft/stream/other/7" 2 1 sampleEnv [("X-Etcd-Cluster-ID", "1")]
     (by decide) (by decide)⟩

/-- C3: for every POST to the message handler whose body exceeds
`ConnReadLimitByte` or whose body read fails, the decode step is never
invoked, the response is never 500, and (when the compatibility check
passes, so the read is reached) the response is 400. -/
theorem oversized_or_failed_read_400_never_decodes
    (cid : Nat) (env : Env) (req : HttpRequest) (b : Body)
    (hp : req.method = "POST")
    (hb : b.readErr = true ∨ b.bytes.length > ConnReadLimitByte) :
    Ev.decode ∉ (handlerServe cid env req b).evs ∧
    (handlerServe cid env req b).resp.status ≠ 500 ∧
    (checkClusterCompatibilityFromHeader env.versionOk req.headers cid = none →
      (handlerServe cid env req b).resp.status = 400) := by
  have hr : readLimited b = none := by
    rcases hb with h | h
    · simp [readLimited, h]
    · by_cases hre : b.readErr <;> simp [readLimited, hre, h]
  rcases hc : checkClusterCompatibilityFromHeader env.versionOk req.headers cid with _ | e
  · refine ⟨?_, ?_, fun _ => ?_⟩ <;> simp [handlerServe, hp, hc, hr, httpError]
  · refine ⟨?_, ?_, fun hcc => ?_⟩
    · simp [handlerServe, hp, hc, httpError]
    · simp [handlerServe, hp, hc, httpError]
    · exact absurd hcc (by simp)

/-- Witness for C3: a POST whose body read fails gets a 400 and its
body is never decoded. -/
theorem oversized_or_failed_read_400_never_decodes_witness :
    (⟨[], true⟩ : Body).readErr = true ∧
    (Ev.decode ∉ (handlerServe 1 sampleEnv
        ⟨"POST", "/raft", [("X-Etcd-Cluster-ID", "1")]⟩ ⟨[], true⟩).evs ∧
      (handlerServe 1 sampleEnv
        ⟨"POST", "/raft", [("X-Etcd-Cluster-ID", "1")]⟩ ⟨[], true⟩).resp.status ≠ 500 ∧
      (checkClusterCompatibilityFromHeader sampleEnv.versionOk
          [("X-Etcd-Cluster-ID", "1")] 1 = none →
        (handlerServe 1 sampleEnv
          ⟨"POST", "/raft", [("X-Etcd-Cluster-ID", "1")]⟩ ⟨[], true⟩).resp.status = 400)) :=
  ⟨rfl,
   oversized_or_failed_read_400_never_decodes 1 sampleEnv
     ⟨"POST", "/raft", [("X-Etcd-Cluster-ID", "1")]⟩ ⟨[], true⟩ rfl (Or.inl rfl)⟩

/-- C5: in the message handler, the performed steps are always an
initial segment of [compat check, body read, decode, engine dispatch],
and on the success path (204) all four occur, in that order; in the
snapshot handler, the steps are always an initial segment of
[compat check, envelope decode, snapshot save, engine dispatch], and on
the success path all four occur, in that order. -/
theorem steps_ordered_and_complete_on_success
    (cid : Nat) (env : Env) (req : HttpRequest) (b : Body) :
    ((handlerServe cid env req b).evs <+:
      [Ev.checkCompat, Ev.readBody, Ev.decode, Ev.process]) ∧
    ((handlerServe cid env req b).resp.status = 204 →
      (handlerServe cid env req b).evs =
        [Ev.checkCompat, Ev.readBody, Ev.decode, Ev.process]) ∧
    ((snapshotHandlerServe cid env req).evs <+:
      [Ev.checkCompat, Ev.decode, Ev.saveFrom, Ev.process]) ∧
    ((snapshotHandlerServe cid env req).resp.status = 204 →
      (snapshotHandlerServe cid env req).evs =
        [Ev.checkCompat, Ev.decode, Ev.saveFrom, Ev.process]) := by
  refine ⟨?_, ?_, ?_, ?_⟩
  · unfold handlerServe
    repeat' split
    all_goals exact ⟨_, rfl⟩
  · unfold handlerServe
    repeat' split
    all_goals simp [httpError]
  · unfold snapshotHandlerServe
    repeat' split
    all_goals exact ⟨_, rfl⟩
  · unfold snapshotHandlerServe
    repeat' split
    all_goals simp [httpError]

/-- Witness for C5: a fully successful POST (204) performs all four
steps of each handler, in order. -/
theorem steps_ordered_and_complete_on_success_witness :
    ((handlerServe 1 sampleEnv ⟨"POST", "/raft", [("X-Etcd-Cluster-ID", "1")]⟩
        sampleBody).evs <+: [Ev.checkCompat, Ev.readBody, Ev.decode, Ev.process]) ∧
    (handlerServe 1 sampleEnv ⟨"POST", "/raft", [("X-Etcd-Cluster-ID", "1")]⟩
        sampleBody).evs = [Ev.checkCompat, Ev.readBody, Ev.decode, Ev.process] ∧
    ((snapshotHandlerServe 1 sampleEnv
        ⟨"POST", "/raft/snapshot", [("X-Etcd-Cluster-ID", "1")]⟩).evs <+:
      [Ev.checkCompat, Ev.decode, Ev.saveFrom, Ev.process]) ∧
    (snapshotHandlerServe 1 sampleEnv
        ⟨"POST", "/raft/snapshot", [("X-Etcd-Cluster-ID", "1")]⟩).evs =
      [Ev.checkCompat, Ev.decode, Ev.saveFrom, Ev.process] :=
  have h₁ := steps_ordered_and_complete_on_success 1 sampleEnv
    ⟨"POST", "/raft", [("X-Etcd-Cluster-ID", "1")]⟩ sampleBody
  have h₂ := steps_ordered_and_complete_on_success 1 sampleEnv
    ⟨"POST", "/raft/snapshot", [("X-Etcd-Cluster-ID", "1")]⟩ sampleBody
  ⟨h₁.1, h₁.2.1 (by decide), h₂.2.2.1, h₂.2.2.2 (by decide)⟩

/-- C6: for every POST to the snapshot handler that passes the method,
compatibility and message-type checks, a `SaveFrom` error yields a 500
and the engine's `Process` is never called; conversely `Process` is
reached only when `SaveFrom` succeeded, and then strictly after it in
the step order. -/
theorem snapshot_save_failure_500_never_processes
    (cid : Nat) (env : Env) (req : HttpRequest) (m : RaftMsg)
    (hp : req.method = "POST")
    (hc : checkClusterCompatibilityFromHeader env.versionOk req.headers cid = none)
    (hd : env.decodeSnapMsg = some m)
    (ht : m.typ = MsgSnap) :
    (env.saveFrom m.snapIndex ≠ none →
      (snapshotHandlerServe cid env req).resp.status = 500 ∧
      Ev.process ∉ (snapshotHandlerServe cid env req).evs) ∧
    (Ev.process ∈ (snapshotHandlerServe cid env req).evs →
      env.saveFrom m.snapIndex = none ∧
      (snapshotHandlerServe cid env req).evs =
        [Ev.checkCompat, Ev.decode, Ev.saveFrom, Ev.process]) := by
  rcases hsf : env.saveFrom m.snapIndex with _ | err
  · refine ⟨fun h => absurd rfl h, fun _ => ⟨rfl, ?_⟩⟩
    rcases hpr : env.process m with _ | pe
    · simp [snapshotHandlerServe, hp, hc, hd, ht, hsf, hpr]
    · cases pe <;> simp [snapshotHandlerServe, hp, hc, hd, ht, hsf, hpr]
  · refine ⟨fun _ => ?_, fun hmem => ?_⟩
    · constructor <;> simp [snapshotHandlerServe, hp, hc, hd, ht, hsf, httpError]
    · have he : (snapshotHandlerServe cid env req).evs =
          [Ev.checkCompat, Ev.decode, Ev.saveFrom] := by
        simp [snapshotHandlerServe, hp, hc, hd, ht, hsf, httpError]
      rw [he] at hmem
      exact absurd hmem (by simp)

/-- Witness for C6: with a failing snapshot saver, a well-formed
snapshot POST gets a 500 and the engine is never invoked. -/
theorem snapshot_save_failure_500_never_processes_witness :
    ({ sampleEnv with saveFrom := fun _ => some "disk failure" } : Env).decodeSnapMsg =
      some ⟨MsgSnap, 1, 5⟩ ∧
    ((({ sampleEnv with saveFrom := fun _ => some "disk failure" } : Env).saveFrom 5 ≠ none →
        (snapshotHandlerServe 1 { sampleEnv with saveFrom := fun _ => some "disk failure" }
          ⟨"POST", "/raft/snapshot", [("X-Etcd-Cluster-ID", "1")]⟩).resp.status = 500 ∧
        Ev.process ∉ (snapshotHandlerServe 1
          { sampleEnv with saveFrom := fun _ => some "disk failure" }
          ⟨"POST", "/raft/snapshot", [("X-Etcd-Cluster-ID", "1")]⟩).evs) ∧
      (Ev.process ∈ (snapshotHandlerServe 1
          { sampleEnv with saveFrom := fun _ => some "disk failure" }
          ⟨"POST", "/raft/snapshot", [("X-Etcd-Cluster-ID", "1")]⟩).evs →
        ({ sampleEnv with saveFrom := fun _ => some "disk failure" } : Env).saveFrom 5 = none ∧
        (snapshotHandlerServe 1 { sampleEnv with saveFrom := fun _ => some "disk failure" }
          ⟨"POST", "/raft/snapshot", [("X-Etcd-Cluster-ID", "1")]⟩).evs =
          [Ev.checkCompat, Ev.decode, Ev.saveFrom, Ev.process])) :=
  ⟨rfl,
   snapshot_save_failure_500_never_processes 1
     { sampleEnv with saveFrom := fun _ => some "disk failure" }
     ⟨"POST", "/raft/snapshot", [("X-Etcd-Cluster-ID", "1")]⟩ ⟨MsgSnap, 1, 5⟩
     rfl (by decide) rfl rfl⟩

/-- C7: for every GET to the stream handler with a recognized stream
path and a well-formed sender id that the consensus engine reports as
removed, the response is 410 Gone, the peer directory's `Get` is never
called, and no connection is attached. -/
theorem removed_stream_sender_410_never_peer_lookup
    (selfId cid : Nat) (env : Env) (req : HttpRequest) (t : streamType) (fromId : Nat)
    (hg : req.method = "GET")
    (hc : checkClusterCompatibilityFromHeader env.versionOk req.headers cid = none)
    (ht : streamPathType req.path = some t)
    (hf : idFromString (pathBase req.path) = some fromId)
    (hr : env.isIDRemoved fromId = true) :
    (streamHandlerServe selfId cid env req).resp.status = 410 ∧
    Ev.peerGet ∉ (streamHandlerServe selfId cid env req).evs ∧
    (streamHandlerServe selfId cid env req).conn = none := by
  refine ⟨?_, ?_, ?_⟩ <;>
    simp [streamHandlerServe, hg, hc, ht, hf, hr, httpError]

/-- Witness for C7: GET `/raft/stream/7` when sender 7 is removed gets
a 410 and the peer directory is never consulted. -/
theorem removed_stream_sender_410_never_peer_lookup_witness :
    streamPathType "/raft/stream/7" = some streamType.msgApp ∧
    idFromString (pathBase "/raft/stream/7") = some 7 ∧
    (({ sampleEnv with isIDRemoved := fun i => i == 7 } : Env).isIDRemoved 7 = true) ∧
    ((streamHandlerServe 2 1 { sampleEnv with isIDRemoved := fun i => i == 7 }
        ⟨"GET", "/raft/stream/7", [("X-Etcd-Cluster-ID", "1")]⟩).resp.status = 410 ∧
      Ev.peerGet ∉ (streamHandlerServe 2 1
        { sampleEnv with isIDRemoved := fun i => i == 7 }
        ⟨"GET", "/raft/stream/7", [("X-Etcd-Cluster-ID", "1")]⟩).evs ∧
      (streamHandlerServe 2 1 { sampleEnv with isIDRemoved := fun i => i == 7 }
        ⟨"GET", "/raft/stream/7", [("X-Etcd-Cluster-ID", "1")]⟩).conn = none) :=
  ⟨by decide, by decide, by decide,
   removed_stream_sender_410_never_peer_lookup 2 1
     { sampleEnv with isIDRemoved := fun i => i == 7 }
     ⟨"GET", "/raft/stream/7", [("X-Etcd-Cluster-ID", "1")]⟩ streamType.msgApp 7
     rfl (by decide) (by decide) (by decide) (by decide)⟩

/-- C8: for every `closeNotifier` that has been fired once via `Close`,
every subsequent wait on its `closeNotify` channel returns immediately,
any number of times. -/
theorem fired_notifier_waits_return_immediately
    (n n' : closeNotifier) (e : Option String)
    (h : n.Close = some (n', e)) (k : Nat) :
    waitsReturn n' k = true := by
  have hc : n' = ⟨⟨true⟩⟩ := by
    unfold closeNotifier.Close GoChan.closeCh at h
    by_cases hb : n.done.closed <;> simp [hb] at h
    exact h.1.symm
  subst hc
  induction k with
  | zero => rfl
  | succ k ih =>
    simp only [waitsReturn, ih, Bool.and_true]
    rfl

/-- Witness for C8: firing a fresh notifier once, five subsequent waits
all return immediately. -/
theorem fired_notifier_waits_return_immediately_witness :
    newCloseNotifier.Close = some (⟨⟨true⟩⟩, none) ∧
    waitsReturn ⟨⟨true⟩⟩ 5 = true :=
  ⟨by decide,
   fired_notifier_waits_return_immediately newCloseNotifier ⟨⟨true⟩⟩ none (by decide) 5⟩

/-- C10: on a `closeNotifier` instance that has not yet been fired,
`Close` succeeds without panic and returns a nil error; a second `Close`
on the fired instance panics (closes an already-closed channel). -/
theorem close_once_nil_close_twice_panics (n : closeNotifier)
    (h : n.done.closed = false) :
    n.Close = some (⟨⟨true⟩⟩, none) ∧
    ∀ n' e, n.Close = some (n', e) → n'.Close = none := by
  constructor
  · simp [closeNotifier.Close, GoChan.closeCh, h]
  · intro n' e he
    simp [closeNotifier.Close, GoChan.closeCh, h] at he
    have hn : n' = ⟨⟨true⟩⟩ := he.1.symm
    subst hn
    rfl

/-- Witness for C10: a freshly created notifier closes once with a nil
error, and closing it again panics. -/
theorem close_once_nil_close_twice_panics_witness :
    newCloseNotifier.done.closed = false ∧
    (newCloseNotifier.Close = some (⟨⟨true⟩⟩, none) ∧
      ∀ n' e, newCloseNotifier.Close = some (n', e) → n'.Close = none) :=
  ⟨by decide, close_once_nil_close_twice_panics newCloseNotifier (by decide)⟩

/-- C9: for a POST whose headers fail both the version check and the
cluster-ID check, `checkClusterCompatibilityFromHeader` returns the
version error (it evaluates the version check first), and the 412
response body reads "incompatible version", not "cluster ID mismatch". -/
theorem version_incompatibility_reported_before_cluster_mismatch
    (cid : Nat) (env : Env) (req : HttpRequest) (b : Body)
    (hv : env.versionOk = false)
    (hm : headerGet req.headers "X-Etcd-Cluster-ID" ≠ idToString cid)
    (hp : req.method = "POST") :
    checkClusterCompatibilityFromHeader env.versionOk req.headers cid =
      some CompatErr.incompatibleVersion ∧
    (handlerServe cid env req b).resp.status = 412 ∧
    (handlerServe cid env req b).resp.body = "incompatible version" := by
  have hc : checkClusterCompatibilityFromHeader env.versionOk req.headers cid =
      some CompatErr.incompatibleVersion := by
    simp [checkClusterCompatibilityFromHeader, hv]
  refine ⟨hc, ?_, ?_⟩ <;>
    simp [handlerServe, hp, hc, httpError, CompatErr.text]

/-- Witness for C9: a POST with a bad version and a mismatched
cluster-ID header gets a 412 whose body is the version error. -/
theorem version_incompatibility_reported_first_witness :
    ({ sampleEnv with versionOk := false } : Env).versionOk = false ∧
    headerGet [("X-Etcd-Cluster-ID", "dead")] "X-Etcd-Cluster-ID" ≠ idToString 1 ∧
    (checkClusterCompatibilityFromHeader false [("X-Etcd-Cluster-ID", "dead")] 1 =
        some CompatErr.incompatibleVersion ∧
      (handlerServe 1 { sampleEnv with versionOk := false }
          ⟨"POST", "/raft", [("X-Etcd-Cluster-ID", "dead")]⟩ sampleBody).resp.status = 412 ∧
      (handlerServe 1 { sampleEnv with versionOk := false }
          ⟨"POST", "/raft", [("X-Etcd-Cluster-ID", "dead")]⟩ sampleBody).resp.body =
        "incompatible version") :=
  ⟨rfl, by decide,
   version_incompatibility_reported_before_cluster_mismatch 1
     { sampleEnv with versionOk := false }
     ⟨"POST", "/raft", [("X-Etcd-Cluster-ID", "dead")]⟩ sampleBody
     rfl (by decide) rfl⟩

end Rafthttp
